import Mathlib

/-!
Verification development for the analysis pipeline in
`marketing-deck-platform/python/insightGenerator.py`.

Modelling conventions:
* pandas/numpy floats are exact rationals (`ℚ`); a missing value (`NaN`,
  `None`, `NaT`) is `Option.none`;
* external library primitives called by the script are either implemented
  faithfully over `ℚ` (pandas `quantile`, `value_counts`, `mean`, `median`,
  Python `round`) or passed as explicit function parameters when their value
  is not a rational-valued function of the cells:
  - `toDate` models `pd.to_datetime` on one string (a date is its ordinal);
  - `corr` models the entries of `df[numeric_cols].corr()` (`none` = `NaN`);
  - `km` models `StandardScaler().fit_transform` followed by
    `KMeans(n_clusters=3, random_state=42, n_init=10).fit_predict`; the
    fixed seed makes that composite a deterministic function of its input,
    which is exactly what a function parameter expresses;
* Python's `list.sort` is stable, modelled by `List.insertionSort` (stable);
  pandas `sort_values` and `value_counts` use an unstable sort whose tie
  order is unspecified, determinised here by the same stable sort.
-/

/-- Round a rational to the nearest integer, ties to even, as Python's
builtin `round` does on exactly representable values. -/
def roundHalfEven (q : ℚ) : ℤ :=
  if q - ⌊q⌋ < 1/2 then ⌊q⌋
  else if (1:ℚ)/2 < q - ⌊q⌋ then ⌊q⌋ + 1
  else if ⌊q⌋ % 2 = 0 then ⌊q⌋ else ⌊q⌋ + 1

/-- Python's `round(q, d)` on exactly representable values. -/
def roundTo (d : ℕ) (q : ℚ) : ℚ :=
  (roundHalfEven (q * 10 ^ d) : ℚ) / 10 ^ d

/-- Truncation toward zero, Python's `int()` on a float. -/
def ratTrunc (q : ℚ) : ℤ := if 0 ≤ q then ⌊q⌋ else ⌈q⌉

/-- Fixed-point decimal rendering of a rational with `d` digits after the
point; models Python's formatting of a float that was already rounded to
`d` decimals. -/
def fmtFixed (d : ℕ) (q : ℚ) : String :=
  let n := roundHalfEven (q * 10 ^ d)
  let a := n.natAbs
  let fracStr := Nat.repr (a % 10 ^ d)
  let pad := String.mk (List.replicate (d - fracStr.length) '0')
  (if n < 0 then "-" else "") ++ Nat.repr (a / 10 ^ d) ++ "." ++ pad ++ fracStr

/-- Sequence a list of optional values, `none` if any entry is `none`. -/
def traverseOpt (f : α → Option β) : List α → Option (List β)
  | [] => some []
  | a :: l =>
    match f a, traverseOpt f l with
    | some b, some bs => some (b :: bs)
    | _, _ => none

/-- One pandas column body: numeric dtype or `object` (string) dtype. -/
inductive ColumnData where
  | numeric (cells : List (Option ℚ))
  | object (cells : List (Option String))
deriving DecidableEq

/-- A named column. -/
structure Column where
  name : String
  data : ColumnData
deriving DecidableEq

/-- A pandas `DataFrame`: the row count and the ordered typed columns
(each column of a well-formed frame has `nrows` cells). -/
structure DataFrame where
  nrows : ℕ
  cols : List Column
deriving DecidableEq

/-- `df.select_dtypes(include=[np.number])` as (name, cells) pairs in column
order. -/
def numericCols (df : DataFrame) : List (String × List (Option ℚ)) :=
  df.cols.filterMap (fun c =>
    match c.data with
    | .numeric cells => some (c.name, cells)
    | .object _ => none)

/-- `df.select_dtypes(include=['object'])` as (name, cells) pairs in column
order. -/
def objectCols (df : DataFrame) : List (String × List (Option String)) :=
  df.cols.filterMap (fun c =>
    match c.data with
    | .object cells => some (c.name, cells)
    | .numeric _ => none)

/-- Null cells of one column. -/
def ColumnData.nullCount : ColumnData → ℕ
  | .numeric cells => (cells.filter (fun c => c.isNone)).length
  | .object cells => (cells.filter (fun c => c.isNone)).length

/-- `df.isnull().sum().sum()`. -/
def missingTotal (df : DataFrame) : ℕ :=
  (df.cols.map (fun c => c.data.nullCount)).sum

/-- One entry of the trend list built on lines 77-84.  The source formats the
timeframe with `strftime('%Y-%m')`; here a date is its ordinal, and the
minimum/maximum dates of the date-sorted rows are its first/last entries. -/
structure Trend where
  metric : String
  timeframe : String
  direction : String
  overall_change_pct : ℚ
  latest_period_change_pct : ℚ
  confidence : ℤ
deriving DecidableEq

/-- `pd.to_datetime(df[col].head())` succeeds: every non-null value among the
first 5 cells parses as a date (lines 47-53). -/
def headParsesAsDates (toDate : String → Option ℤ) (cells : List (Option String)) : Bool :=
  (cells.take 5).all (fun c =>
    match c with
    | none => true
    | some s => (toDate s).isSome)

/-- `pd.to_datetime` over a whole column; `none` when some non-null cell
fails to parse (the pandas call raises, caught by the per-pair handler). -/
def parseDateColumn (toDate : String → Option ℤ) : List (Option String) → Option (List (Option ℤ))
  | [] => some []
  | none :: rest => (parseDateColumn toDate rest).map (fun ds => none :: ds)
  | some s :: rest =>
    match toDate s, parseDateColumn toDate rest with
    | some d, some ds => some (some d :: ds)
    | _, _ => none

/-- Lines 63-66: select the (date, metric) pair, parse the dates, sort by
date and drop null rows.  A stable sort commutes with dropping rows, and
rows whose date is `NaT` are dropped by `dropna`, so the result is the
date-sorted list of fully non-null rows. -/
def cleanPair (toDate : String → Option ℤ) (dcells : List (Option String))
    (mcells : List (Option ℚ)) : Option (List (ℤ × ℚ)) :=
  match parseDateColumn toDate dcells with
  | none => none
  | some ds =>
    some (List.insertionSort (fun a b : ℤ × ℚ => a.1 ≤ b.1)
      ((ds.zip mcells).filterMap (fun z =>
        match z with
        | (some d, some v) => some (d, v)
        | _ => none)))

/-- Lines 68-84: the trend built from the cleaned, date-sorted rows of one
(date column, metric) pair; `none` when fewer than 3 rows remain.  The inner
`len(values) >= 2` test of line 71 is subsumed by the outer `>= 3` test. -/
def trendOfRows (mname : String) (rows : List (ℤ × ℚ)) : Option Trend :=
  if 3 ≤ rows.length then
      let values := rows.map (fun r => r.2)
      let vlast := values.getLastD 0
      let vprev := values.getD (values.length - 2) 0
      let vfirst := values.headD 0
      let latest_growth : ℚ := if vprev ≠ 0 then (vlast - vprev) / |vprev| * 100 else 0
      let overall_growth : ℚ := if vfirst ≠ 0 then (vlast - vfirst) / |vfirst| * 100 else 0
      let trend_direction :=
        if 5 < overall_growth then "growth"
        else if overall_growth < -5 then "decline" else "stable"
      some { metric := mname,
             timeframe := toString ((rows.map (fun r => r.1)).headD 0) ++ " to " ++
               toString ((rows.map (fun r => r.1)).getLastD 0),
             direction := trend_direction,
             overall_change_pct := roundTo 1 overall_growth,
             latest_period_change_pct := roundTo 1 latest_growth,
             confidence := min 100 (max 50 (100 - |100 - (rows.length : ℤ) * 10|)) }
  else none

/-- Lines 61-87: the trend for one (date column, metric) pair; `none` when
the full-column date parse fails (exception, pair skipped) or when fewer
than 3 rows remain after `dropna`. -/
def pairTrend (toDate : String → Option ℤ) (dcells : List (Option String))
    (mname : String) (mcells : List (Option ℚ)) : Option Trend :=
  match cleanPair toDate dcells mcells with
  | none => none
  | some rows => trendOfRows mname rows

/-- Lines 40-89: `detect_trends`.  Date columns are the object columns whose
first 5 values parse as dates; only the first date column and the first 3
numeric columns are used. -/
def detect_trends (toDate : String → Option ℤ) (df : DataFrame) : List Trend :=
  let date_cols := (objectCols df).filter (fun c => headParsesAsDates toDate c.2)
  match date_cols.head? with
  | none => []
  | some dc => ((numericCols df).take 3).filterMap (fun m => pairTrend toDate dc.2 m.1 m.2)

/-- One entry of the outlier list built on lines 108-120. -/
structure OutlierGroup where
  column : String
  outlier_count : ℕ
  outlier_percentage : ℚ
  highest : Option ℚ
  lowest : Option ℚ
  upper : ℚ
  lower : ℚ
deriving DecidableEq

/-- pandas `Series.quantile(q)` with the default linear interpolation over
the sorted non-null values; `none` when there are none (pandas yields `NaN`,
on which every subsequent comparison is false). -/
def quantileLinear (cells : List (Option ℚ)) (q : ℚ) : Option ℚ :=
  match List.insertionSort (fun a b : ℚ => a ≤ b) (cells.filterMap id) with
  | [] => none
  | x :: xs =>
    let s := x :: xs
    let n := s.length
    let pos : ℚ := ((n - 1 : ℕ) : ℚ) * q
    let i : ℕ := (⌊pos⌋).toNat
    some (s.getD i 0 + (pos - (⌊pos⌋ : ℚ)) * (s.getD (min (i + 1) (n - 1)) 0 - s.getD i 0))

/-- Lines 98-120 for a single numeric column.  A column with no non-null
values gets `NaN` quantiles in the source, every bound comparison is then
false and no group is emitted; here the quantile is `none` and the column is
skipped, the same observable outcome. -/
def outlierGroupFor (nrows : ℕ) (name : String) (cells : List (Option ℚ)) : Option OutlierGroup :=
  match quantileLinear cells (1/4), quantileLinear cells (3/4) with
  | some q1, some q3 =>
    let iqr := q3 - q1
    let lower_bound := q1 - 3/2 * iqr
    let upper_bound := q3 + 3/2 * iqr
    let outlier_values := (cells.filterMap id).filter
      (fun v => decide (v < lower_bound) || decide (upper_bound < v))
    if 0 < outlier_values.length then
      some { column := name,
             outlier_count := outlier_values.length,
             outlier_percentage := roundTo 1 ((outlier_values.length : ℚ) / (nrows : ℚ) * 100),
             highest := if 0 < outlier_values.length then outlier_values.max? else none,
             lowest := if 0 < outlier_values.length then outlier_values.min? else none,
             upper := upper_bound,
             lower := lower_bound }
    else none
  | _, _ => none

/-- Lines 92-125: `detect_outliers` over the first 5 numeric columns. -/
def detect_outliers (df : DataFrame) : List OutlierGroup :=
  ((numericCols df).take 5).filterMap (fun c => outlierGroupFor df.nrows c.1 c.2)

/-- One entry of the correlation list built on lines 144-151. -/
structure Correlation where
  variable_x : String
  variable_y : String
  correlation : ℚ
  strength : String
  direction : String
  business_insight : String
deriving DecidableEq

/-- Lines 162-167: `generate_correlation_insight`. -/
def generate_correlation_insight (col1 col2 : String) (corr_value : ℚ) : String :=
  let dir_word := if 0 < corr_value then "increases" else "decreases"
  let strength_word := if 7/10 ≤ |corr_value| then "strongly" else "moderately"
  "As " ++ col1 ++ " increases, " ++ col2 ++ " " ++ strength_word ++ " " ++ dir_word ++
    " (r=" ++ fmtFixed 2 corr_value ++ ")"

/-- The upper-triangle column pairs (i, j), i < j, in the loop order of
lines 138-140. -/
def upperPairs : List String → List (String × String)
  | [] => []
  | x :: xs => xs.map (fun y => (x, y)) ++ upperPairs xs

/-- Lines 128-159: `analyze_correlations`.  The entries of
`df[numeric_cols].corr()` are supplied by `corr`; a `none` entry models a
`NaN` coefficient, whose threshold test is false.  The final sort key is the
stored coefficient, which the source has already rounded to 3 decimals. -/
def analyze_correlations (corr : String → String → Option ℚ) (df : DataFrame) : List Correlation :=
  let numeric_cols := (numericCols df).map (fun c => c.1)
  let correlations :=
    if 2 ≤ numeric_cols.length then
      List.insertionSort (fun a b : Correlation => |b.correlation| ≤ |a.correlation|)
        ((upperPairs numeric_cols).filterMap (fun pr =>
          match corr pr.1 pr.2 with
          | none => none
          | some r =>
            if 1/2 ≤ |r| then
              some { variable_x := pr.1, variable_y := pr.2,
                     correlation := roundTo 3 r,
                     strength := if 7/10 ≤ |r| then "strong" else "moderate",
                     direction := if 0 < r then "positive" else "negative",
                     business_insight := generate_correlation_insight pr.1 pr.2 r }
            else none))
    else []
  correlations.take 5

/-- One category row of a categorical segment (lines 189-193). -/
structure CategoryCount where
  name : String
  count : ℕ
  percentage : ℚ
deriving DecidableEq

/-- Mean/median of one feature inside one cluster (lines 227-231). -/
structure ClusterFeature where
  feature : String
  mean : ℚ
  median : ℚ
deriving DecidableEq

/-- One cluster summary (lines 222-233). -/
structure ClusterInfo where
  cluster_id : ℕ
  size : ℕ
  percentage : ℚ
  characteristics : List ClusterFeature
deriving DecidableEq

/-- A segment: categorical distribution or numeric k-means clusters. -/
inductive Segment where
  | categorical (segment_by : String) (segments : List CategoryCount)
  | numericClusters (features_used : List String) (clusters : List ClusterInfo)
deriving DecidableEq

/-- Whether a segment is the categorical variant. -/
def Segment.isCategorical : Segment → Bool
  | .categorical _ _ => true
  | .numericClusters _ _ => false

/-- Occurrence counts of the values in first-appearance order. -/
def countOccurrences (l : List String) : List (String × ℕ) :=
  l.foldl (fun acc s =>
    if acc.any (fun pr => pr.1 == s) then
      acc.map (fun pr => if pr.1 == s then (pr.1, pr.2 + 1) else pr)
    else acc ++ [(s, 1)]) []

/-- pandas `Series.value_counts()`: the non-null values with their counts,
sorted by count descending (stable here; pandas leaves the tie order
unspecified). -/
def valueCounts (cells : List (Option String)) : List (String × ℕ) :=
  List.insertionSort (fun a b : String × ℕ => b.2 ≤ a.2) (countOccurrences (cells.filterMap id))

/-- Lines 181-198 for one categorical column: emit a segment when the
distinct-value count is within [2, 10], listing the top 5 categories. -/
def categoricalSegmentFor (nrows : ℕ) (name : String) (cells : List (Option String)) :
    Option Segment :=
  let value_counts := valueCounts cells
  if 2 ≤ value_counts.length ∧ value_counts.length ≤ 10 then
    some (.categorical name ((value_counts.take 5).map (fun pr =>
      { name := pr.1, count := pr.2,
        percentage := roundTo 1 ((pr.2 : ℚ) / (nrows : ℚ) * 100) })))
  else none

/-- Mean of a list of rationals (`Series.mean()`). -/
def listMean (l : List ℚ) : ℚ := l.sum / (l.length : ℚ)

/-- Median of a list of rationals (`Series.median()`). -/
def listMedian (l : List ℚ) : ℚ :=
  let s := List.insertionSort (fun a b : ℚ => a ≤ b) l
  let n := s.length
  if n % 2 = 1 then s.getD (n / 2) 0
  else (s.getD (n / 2 - 1) 0 + s.getD (n / 2) 0) / 2

/-- `df[numeric_cols[:3]].dropna()`: the rows of the first 3 numeric columns
with any-null rows dropped, in row order. -/
def clusterRows (df : DataFrame) : List (List ℚ) :=
  let ncs := (numericCols df).take 3
  (List.range df.nrows).filterMap (fun i =>
    traverseOpt id (ncs.map (fun c => c.2.getD i none)))

/-- Lines 201-243: the numeric-clustering sub-analysis.  `km` is the
scaler + seeded k-means label assignment; `random_state=42` makes it a fixed
function of the selected rows, and `optimal_k` is the fixed default 3. -/
def numericClusterSegment (km : List (List ℚ) → List ℕ) (df : DataFrame) : Option Segment :=
  if 2 ≤ (numericCols df).length ∧ 10 ≤ df.nrows then
    let ncs := (numericCols df).take 3
    let names := ncs.map (fun c => c.1)
    let cluster_data := clusterRows df
    if 10 ≤ cluster_data.length then
      let labels := km cluster_data
      let cluster_summary := (List.range 3).filterMap (fun cid =>
        let subset := ((cluster_data.zip labels).filter (fun z => z.2 == cid)).map (fun z => z.1)
        if 0 < subset.length then
          some { cluster_id := cid,
                 size := subset.length,
                 percentage := roundTo 1 ((subset.length : ℚ) / (cluster_data.length : ℚ) * 100),
                 characteristics := (names.take 2).enum.map (fun pr =>
                   { feature := pr.2,
                     mean := roundTo 2 (listMean (subset.map (fun row => row.getD pr.1 0))),
                     median := roundTo 2 (listMedian (subset.map (fun row => row.getD pr.1 0))) }) }
        else none)
      some (.numericClusters names cluster_summary)
    else none
  else none

/-- Lines 170-245: `analyze_segments` (with scipy/sklearn available, as the
spec's pipeline assumes): categorical segments for the first 3 object
columns, then the optional clustering segment. -/
def analyze_segments (km : List (List ℚ) → List ℕ) (df : DataFrame) : List Segment :=
  ((objectCols df).take 3).filterMap (fun c => categoricalSegmentFor df.nrows c.1 c.2)
    ++ (numericClusterSegment km df).toList

/-- Lines 248-273: `calculate_data_quality_score`.  For a frame with zero
cells numpy evaluates `0 / 0` to `NaN` (the warning is suppressed) and
Python's `min(40, nan)` keeps `40`, so the missing-data penalty is 40. -/
def calculate_data_quality_score (df : DataFrame) : ℤ :=
  let total_cells := df.nrows * df.cols.length
  let missing_penalty : ℚ :=
    if total_cells = 0 then 40
    else min 40 ((missingTotal df : ℚ) / (total_cells : ℚ) * 100 * 2)
  let s1 : ℚ := 100 - missing_penalty
  let s2 := if 100 ≤ df.nrows then s1 + 5 else if df.nrows < 10 then s1 - 20 else s1
  let s3 := if 2 ≤ (numericCols df).length ∧ 1 ≤ (objectCols df).length then s2 + 10 else s2
  let s4 := if 20 < df.cols.length then s3 - 10 else s3
  max 0 (min 100 (ratTrunc s4))

/-- One key insight (lines 304-336). -/
structure Insight where
  type : String
  title : String
  description : String
  business_impact : String
  slide_recommendation : String
deriving DecidableEq

/-- Python's `max(l, key=key)`: the first element attaining the maximal key. -/
def maxByFirst (key : α → ℚ) : List α → Option α
  | [] => none
  | x :: xs => some (xs.foldl (fun acc y => if key acc < key y then y else acc) x)

/-- Lines 300-310: the growth insight, from the growth trend with the
largest overall change among those above 10%. -/
def growthInsight (trends : List Trend) : Option Insight :=
  if trends.isEmpty then none
  else
    let growth_trends := trends.filter (fun t =>
      t.direction == "growth" && decide ((10:ℚ) < t.overall_change_pct))
    match maxByFirst (fun t => t.overall_change_pct) growth_trends with
    | none => none
    | some best_growth =>
      some { type := "growth_opportunity",
             title := best_growth.metric ++ " Shows Strong Growth",
             description := best_growth.metric ++ " increased " ++
               fmtFixed 1 best_growth.overall_change_pct ++ "% over " ++ best_growth.timeframe,
             business_impact := "high",
             slide_recommendation := "metrics_performance" }

/-- Lines 313-322: the relationship insight, from the first strong
correlation (the list is already sorted by absolute coefficient). -/
def relationshipInsight (correlations : List Correlation) : Option Insight :=
  if correlations.isEmpty then none
  else
    match correlations.filter (fun c => c.strength == "strong") with
    | [] => none
    | c :: _ =>
      some { type := "relationship_discovery",
             title := "Strong Relationship: " ++ c.variable_x ++ " & " ++ c.variable_y,
             description := c.business_insight,
             business_impact := "medium",
             slide_recommendation := "correlation_analysis" }

/-- Lines 325-337: the segmentation insight.  The `break` on line 337 sits at
the top level of the loop body, not inside the qualifying `if`, so the loop
exits after its first iteration unconditionally: only `segments[0]` is ever
examined. -/
def segmentInsight (segments : List Segment) : Option Insight :=
  match segments with
  | [] => none
  | .categorical segment_by segs :: _ =>
    if 2 ≤ segs.length then
      match maxByFirst (fun s => s.percentage) segs with
      | none => none
      | some largest_segment =>
        if 40 ≤ largest_segment.percentage then
          some { type := "market_segmentation",
                 title := segment_by ++ " Distribution Analysis",
                 description := largest_segment.name ++ " represents " ++
                   fmtFixed 1 largest_segment.percentage ++ "% of the data",
                 business_impact := "medium",
                 slide_recommendation := "segment_breakdown" }
        else none
    else none
  | .numericClusters _ _ :: _ => none

/-- Lines 362-372: `determine_narrative_arc`. -/
def determine_narrative_arc (trends : List Trend) (correlations : List Correlation)
    (segments : List Segment) : String :=
  if trends.any (fun t => t.direction == "growth") then "growth_story"
  else if 2 ≤ correlations.length then "relationship_analysis"
  else if 1 ≤ segments.length then "segmentation_insights"
  else "data_summary"

/-- Lines 375-400: `recommend_chart_types` (its `df` argument is unused in
the source body as well). -/
def recommend_chart_types (df : DataFrame) (trends : List Trend)
    (correlations : List Correlation) (segments : List Segment) : List String :=
  let l1 := if trends.isEmpty then [] else ["line"]
  let l2 := if correlations.isEmpty then [] else ["scatter"]
  let l3 :=
    if segments.isEmpty then []
    else if (segments.filter (fun s => s.isCategorical)).isEmpty then []
    else ["bar", "donut"]
  let chart_recommendations := l1 ++ l2 ++ l3 ++ ["metrics_cards"]
  let chart_recommendations :=
    if chart_recommendations.isEmpty then ["bar", "line"] else chart_recommendations
  chart_recommendations.take 4

/-- Lines 280-287: `basic_stats`.  For a frame with zero cells the percentage
divisor is zero (numpy yields `NaN` there; the model's total division yields
0). -/
structure BasicStats where
  row_count : ℕ
  column_count : ℕ
  numeric_columns : ℕ
  categorical_columns : ℕ
  missing_values_total : ℕ
  missing_percentage : ℚ
deriving DecidableEq

/-- Lines 347-351. -/
structure SlideRecommendations where
  total_slides_suggested : ℕ
  narrative_arc : String
  chart_types_recommended : List String
deriving DecidableEq

/-- Lines 352-358.  Version strings are fixed constants of the environment. -/
structure AnalysisMetadata where
  analysis_timestamp : String
  python_version : String
  pandas_version : String
  has_profiling : Bool
  has_scipy : Bool
deriving DecidableEq

/-- Lines 339-359: the report value returned by `analyze_dataframe`. -/
structure AnalysisReport where
  basic_statistics : BasicStats
  data_quality_score : ℤ
  trends : List Trend
  outliers : List OutlierGroup
  correlations : List Correlation
  segments : List Segment
  key_insights : List Insight
  slide_recommendations : SlideRecommendations
  metadata : AnalysisMetadata
deriving DecidableEq

/-- Lines 280-287. -/
def basicStats (df : DataFrame) : BasicStats :=
  { row_count := df.nrows,
    column_count := df.cols.length,
    numeric_columns := (numericCols df).length,
    categorical_columns := (objectCols df).length,
    missing_values_total := missingTotal df,
    missing_percentage :=
      roundTo 2 ((missingTotal df : ℚ) / ((df.nrows * df.cols.length : ℕ) : ℚ) * 100) }

/-- Lines 276-359: `analyze_dataframe`.  `ts` models
`pd.Timestamp.now().isoformat()`, the only run-dependent input. -/
def analyze_dataframe (toDate : String → Option ℤ) (corr : String → String → Option ℚ)
    (km : List (List ℚ) → List ℕ) (df : DataFrame) (ts : String) : AnalysisReport :=
  let trends := detect_trends toDate df
  let outliers := detect_outliers df
  let correlations := analyze_correlations corr df
  let segments := analyze_segments km df
  let quality_score := calculate_data_quality_score df
  let key_insights := (growthInsight trends).toList ++ (relationshipInsight correlations).toList
    ++ (segmentInsight segments).toList
  { basic_statistics := basicStats df,
    data_quality_score := quality_score,
    trends := trends,
    outliers := outliers,
    correlations := correlations,
    segments := segments,
    key_insights := key_insights,
    slide_recommendations :=
      { total_slides_suggested := min 8 (max 4 (key_insights.length + 2)),
        narrative_arc := determine_narrative_arc trends correlations segments,
        chart_types_recommended := recommend_chart_types df trends correlations segments },
    metadata :=
      { analysis_timestamp := ts,
        python_version := "3.11.0",
        pandas_version := "2.0.0",
        has_profiling := true,
        has_scipy := true } }

/-- The report with its timestamp blanked, for comparing two runs. -/
def eraseTimestamp (r : AnalysisReport) : AnalysisReport :=
  { r with metadata := { r.metadata with analysis_timestamp := "" } }

/-- Narrative-arc selection as the spec words it (priority order over the
analyzer outputs), for comparison with the source's
`determine_narrative_arc`. -/
def narrativeArcSpec (trends : List Trend) (correlations : List Correlation)
    (segments : List Segment) : String :=
  if ∃ t ∈ trends, t.direction = "growth" then "growth_story"
  else if 2 ≤ correlations.length then "relationship_analysis"
  else if 1 ≤ segments.length then "segmentation_insights"
  else "data_summary"

/-! Basic facts about the rounding helpers. -/

theorem floor_le_roundHalfEven (q : ℚ) : ⌊q⌋ ≤ roundHalfEven q := by
  unfold roundHalfEven
  split_ifs <;> omega

theorem roundHalfEven_le_ceil (q : ℚ) : roundHalfEven q ≤ ⌈q⌉ := by
  unfold roundHalfEven
  have h1 : q ≤ (⌈q⌉ : ℚ) := Int.le_ceil q
  have h2 : ⌊q⌋ ≤ ⌈q⌉ := Int.floor_le_ceil q
  have key : (1:ℚ)/2 ≤ q - ⌊q⌋ → ⌊q⌋ + 1 ≤ ⌈q⌉ := by
    intro h
    have hlt : (⌊q⌋ : ℚ) < (⌈q⌉ : ℚ) := by linarith
    have : ⌊q⌋ < ⌈q⌉ := by exact_mod_cast hlt
    omega
  split_ifs with ha hb hc
  · exact h2
  · exact key (le_of_lt hb)
  · exact h2
  · exact key (le_of_eq (by linarith))

theorem le_abs_roundTo3 {r : ℚ} (h : 1/2 ≤ |r|) : 1/2 ≤ |roundTo 3 r| := by
  have hpow : ((10 : ℚ) ^ 3) = 1000 := by norm_num
  unfold roundTo
  rw [hpow]
  rcases le_or_lt 0 r with hr | hr
  · have hr2 : (1:ℚ)/2 ≤ r := by rwa [abs_of_nonneg hr] at h
    have hf : (500 : ℤ) ≤ ⌊r * 1000⌋ := by
      rw [Int.le_floor]
      push_cast
      nlinarith
    have hrh : (500 : ℤ) ≤ roundHalfEven (r * 1000) :=
      le_trans hf (floor_le_roundHalfEven _)
    have hq : (500 : ℚ) ≤ (roundHalfEven (r * 1000) : ℚ) := by exact_mod_cast hrh
    have hval : (1:ℚ)/2 ≤ (roundHalfEven (r * 1000) : ℚ) / 1000 := by
      rw [le_div_iff (by norm_num : (0:ℚ) < 1000)]
      linarith
    exact le_trans hval (le_abs_self _)
  · have hr2 : r ≤ -(1/2 : ℚ) := by
      rw [abs_of_neg hr] at h
      linarith
    have hf : ⌈r * 1000⌉ ≤ (-500 : ℤ) := by
      rw [Int.ceil_le]
      push_cast
      nlinarith
    have hrh : roundHalfEven (r * 1000) ≤ (-500 : ℤ) :=
      le_trans (roundHalfEven_le_ceil _) hf
    have hq : (roundHalfEven (r * 1000) : ℚ) ≤ (-500 : ℚ) := by exact_mod_cast hrh
    have hval : (roundHalfEven (r * 1000) : ℚ) / 1000 ≤ -(1/2 : ℚ) := by
      rw [div_le_iff (by norm_num : (0:ℚ) < 1000)]
      linarith
    calc (1:ℚ)/2 ≤ -((roundHalfEven (r * 1000) : ℚ) / 1000) := by linarith
    _ ≤ |(roundHalfEven (r * 1000) : ℚ) / 1000| := neg_le_abs _

/-- C2: for every input dataset shape, including a zero-row dataset and a
dataset whose values are all null, the quality scorer returns without
raising an error (the model is a total function: the zero-cell branch
reproduces numpy's `0 / 0 = NaN` followed by Python's `min(40, nan) = 40`,
so no division error escapes) and its result is an integer within
[0, 100]. -/
theorem quality_score_in_range (df : DataFrame) :
    0 ≤ calculate_data_quality_score df ∧ calculate_data_quality_score df ≤ 100 := by
  unfold calculate_data_quality_score
  exact ⟨le_max_left _ _, max_le (by norm_num) (min_le_left _ _)⟩

/-- C4: running the full analysis pipeline twice on the identical dataset
(with clustering included — `km` is the seeded, hence deterministic,
scaler-plus-k-means assignment) produces identical cluster assignments
(both runs apply `km` to the same `clusterRows df`, so the segments agree)
and reports that are identical in every field except the timestamp. -/
theorem rerun_identical_up_to_timestamp (toDate : String → Option ℤ)
    (corr : String → String → Option ℚ) (km : List (List ℚ) → List ℕ)
    (df : DataFrame) (ts1 ts2 : String) :
    eraseTimestamp (analyze_dataframe toDate corr km df ts1) =
      eraseTimestamp (analyze_dataframe toDate corr km df ts2) ∧
    (analyze_dataframe toDate corr km df ts1).segments =
      (analyze_dataframe toDate corr km df ts2).segments ∧
    (analyze_dataframe toDate corr km df ts1).metadata.analysis_timestamp = ts1 ∧
    (analyze_dataframe toDate corr km df ts2).metadata.analysis_timestamp = ts2 :=
  ⟨rfl, rfl, rfl, rfl⟩

/-! Shapes of the three insight constructors, shared by several claims. -/

theorem growthInsight_type (trends : List Trend) (i : Insight)
    (h : growthInsight trends = some i) : i.type = "growth_opportunity" := by
  unfold growthInsight at h
  split_ifs at h with h1
  dsimp only at h
  rcases hm : maxByFirst (fun t => t.overall_change_pct)
      (trends.filter fun t =>
        t.direction == "growth" && decide ((10:ℚ) < t.overall_change_pct)) with _ | b
  · rw [hm] at h
    simp at h
  · rw [hm] at h
    dsimp only at h
    rw [Option.some.injEq] at h
    rw [← h]

theorem relationshipInsight_type (correlations : List Correlation) (i : Insight)
    (h : relationshipInsight correlations = some i) : i.type = "relationship_discovery" := by
  unfold relationshipInsight at h
  split_ifs at h with h1
  rcases hm : correlations.filter (fun c => c.strength == "strong") with _ | ⟨c, rest⟩
  · rw [hm] at h
    simp at h
  · rw [hm] at h
    dsimp only at h
    rw [Option.some.injEq] at h
    rw [← h]

theorem segmentInsight_type (segments : List Segment) (i : Insight)
    (h : segmentInsight segments = some i) : i.type = "market_segmentation" := by
  rcases segments with _ | ⟨s, rest⟩
  · simp [segmentInsight] at h
  · rcases s with ⟨sby, segs⟩ | ⟨fs, cl⟩
    · unfold segmentInsight at h
      dsimp only at h
      split_ifs at h with h1
      rcases hm : maxByFirst (fun s => s.percentage) segs with _ | b
      · rw [hm] at h
        simp at h
      · rw [hm] at h
        dsimp only at h
        split_ifs at h with h2
        rw [Option.some.injEq] at h
        rw [← h]
    · simp [segmentInsight] at h

theorem insight_list_shape (o1 o2 o3 : Option Insight)
    (h1 : ∀ i, o1 = some i → i.type = "growth_opportunity")
    (h2 : ∀ i, o2 = some i → i.type = "relationship_discovery")
    (h3 : ∀ i, o3 = some i → i.type = "market_segmentation") :
    ((o1.toList ++ o2.toList ++ o3.toList).map (fun i => i.type)).Sublist
      ["growth_opportunity", "relationship_discovery", "market_segmentation"] ∧
    (o1.toList ++ o2.toList ++ o3.toList).length ≤ 3 := by
  rcases o1 with _ | i1 <;> rcases o2 with _ | i2 <;> rcases o3 with _ | i3
  all_goals
    refine ⟨?_, by simp⟩
  all_goals
    try have e1 := h1 _ rfl
  all_goals
    try have e2 := h2 _ rfl
  all_goals
    try have e3 := h3 _ rfl
  all_goals
    simp only [Option.toList_some, Option.toList_none, List.nil_append, List.append_nil,
      List.cons_append, List.append_assoc, List.map_cons, List.map_nil]
  all_goals
    try rw [e1]
  all_goals
    try rw [e2]
  all_goals
    try rw [e3]
  all_goals
    decide

/-- C9: for every dataset, the synthesizer emits at most one insight of
each of the three kinds, always in the order growth_opportunity,
relationship_discovery, market_segmentation (the kind list is a sublist of
that fixed order), so key_insights has length at most 3 and
total_slides_suggested is always 4 or 5 — the upper clamp of 8 is never
reached. -/
theorem key_insights_bounded (toDate : String → Option ℤ) (corr : String → String → Option ℚ)
    (km : List (List ℚ) → List ℕ) (df : DataFrame) (ts : String) :
    (((analyze_dataframe toDate corr km df ts).key_insights.map (fun i => i.type)).Sublist
      ["growth_opportunity", "relationship_discovery", "market_segmentation"]) ∧
    (analyze_dataframe toDate corr km df ts).key_insights.length ≤ 3 ∧
    ((analyze_dataframe toDate corr km df ts).slide_recommendations.total_slides_suggested = 4 ∨
     (analyze_dataframe toDate corr km df ts).slide_recommendations.total_slides_suggested = 5) := by
  have hki : (analyze_dataframe toDate corr km df ts).key_insights =
      (growthInsight (detect_trends toDate df)).toList ++
        (relationshipInsight (analyze_correlations corr df)).toList ++
        (segmentInsight (analyze_segments km df)).toList := rfl
  have hsl : (analyze_dataframe toDate corr km df ts).slide_recommendations.total_slides_suggested =
      min 8 (max 4 ((analyze_dataframe toDate corr km df ts).key_insights.length + 2)) := rfl
  have hshape := insight_list_shape (growthInsight (detect_trends toDate df))
    (relationshipInsight (analyze_correlations corr df))
    (segmentInsight (analyze_segments km df))
    (fun i h => growthInsight_type _ i h)
    (fun i h => relationshipInsight_type _ i h)
    (fun i h => segmentInsight_type _ i h)
  have hlen : (analyze_dataframe toDate corr km df ts).key_insights.length ≤ 3 := by
    rw [hki]; exact hshape.2
  refine ⟨by rw [hki]; exact hshape.1, hlen, ?_⟩
  rw [hsl]
  omega

/-- C7: for a dataset with no date-like column, fewer than 2 numeric columns
and no categorical column whose distinct-value count lies in [2, 10], the
selected narrative arc is "data_summary"; and the selection follows exactly
the spec's priority order (`determine_narrative_arc` agrees with the
spec-worded `narrativeArcSpec` on all inputs). -/
theorem narrative_arc_priority_and_default :
    (∀ (trends : List Trend) (correlations : List Correlation) (segments : List Segment),
        determine_narrative_arc trends correlations segments =
          narrativeArcSpec trends correlations segments) ∧
    (∀ (toDate : String → Option ℤ) (corr : String → String → Option ℚ)
        (km : List (List ℚ) → List ℕ) (df : DataFrame) (ts : String),
        ((objectCols df).filter (fun c => headParsesAsDates toDate c.2)) = [] →
        (numericCols df).length < 2 →
        (∀ c ∈ objectCols df,
          ¬(2 ≤ (valueCounts c.2).length ∧ (valueCounts c.2).length ≤ 10)) →
        (analyze_dataframe toDate corr km df ts).slide_recommendations.narrative_arc =
          "data_summary") := by
  constructor
  · intro trends correlations segments
    unfold determine_narrative_arc narrativeArcSpec
    by_cases hg : ∃ t ∈ trends, t.direction = "growth"
    · have hb : (trends.any fun t => t.direction == "growth") = true := by
        rw [List.any_eq_true]
        obtain ⟨t, ht, hd⟩ := hg
        exact ⟨t, ht, by simp [hd]⟩
      simp [hb, hg]
    · have hb : (trends.any fun t => t.direction == "growth") = false := by
        rw [List.any_eq_false]
        intro t ht
        simp only [beq_iff_eq]
        exact fun hd => hg ⟨t, ht, hd⟩
      simp [hb, hg]
  · intro toDate corr km df ts h1 h2 h3
    have htr : detect_trends toDate df = [] := by
      simp [detect_trends, h1]
    have hco : analyze_correlations corr df = [] := by
      simp only [analyze_correlations]
      rw [if_neg]
      · rfl
      · rw [List.length_map]
        omega
    have hcat : ((objectCols df).take 3).filterMap
        (fun c => categoricalSegmentFor df.nrows c.1 c.2) = [] := by
      rw [List.filterMap_eq_nil_iff]
      intro c hc
      simp only [categoricalSegmentFor]
      rw [if_neg (h3 c (List.mem_of_mem_take hc))]
    have hnot : ¬(2 ≤ (numericCols df).length ∧ 10 ≤ df.nrows) := fun hc =>
      absurd hc.1 (by omega)
    have hnum : numericClusterSegment km df = none := by
      unfold numericClusterSegment
      rw [if_neg hnot]
    have hseg : analyze_segments km df = [] := by
      unfold analyze_segments
      rw [hcat, hnum]
      rfl
    have harc : (analyze_dataframe toDate corr km df ts).slide_recommendations.narrative_arc =
        determine_narrative_arc (detect_trends toDate df) (analyze_correlations corr df)
          (analyze_segments km df) := rfl
    rw [harc, htr, hco, hseg]
    rfl

/-- Fixed concrete library parameters for the evaluation theorems: no string
parses as a date, every correlation entry is `NaN`, the cluster assignment is
empty. -/
def toDate0 : String → Option ℤ := fun _ => none

/-- Concrete correlation matrix with every entry `NaN`. -/
def corr0 : String → String → Option ℚ := fun _ _ => none

/-- Concrete cluster assignment (never consulted in the witnesses that use
it, since their frames have fewer than 2 numeric columns). -/
def km0 : List (List ℚ) → List ℕ := fun _ => []

/-- Concrete frame for the C7 witness: one numeric column, one constant
categorical column, no date-like column. -/
def df7 : DataFrame :=
  ⟨3, [⟨"n", .numeric [some 1, some 2, some 3]⟩,
       ⟨"c", .object [some "u", some "u", some "u"]⟩]⟩

theorem narrative_arc_witness :
    (((objectCols df7).filter (fun c => headParsesAsDates toDate0 c.2)) = [] ∧
      (numericCols df7).length < 2 ∧
      (∀ c ∈ objectCols df7,
        ¬(2 ≤ (valueCounts c.2).length ∧ (valueCounts c.2).length ≤ 10))) ∧
    (analyze_dataframe toDate0 corr0 km0 df7 "t1").slide_recommendations.narrative_arc =
      "data_summary" := by
  have hA : ((objectCols df7).filter (fun c => headParsesAsDates toDate0 c.2)) = [] ∧
      (numericCols df7).length < 2 ∧
      (∀ c ∈ objectCols df7,
        ¬(2 ≤ (valueCounts c.2).length ∧ (valueCounts c.2).length ≤ 10)) := by
    decide
  exact ⟨hA, narrative_arc_priority_and_default.2 toDate0 corr0 km0 df7 "t1"
    hA.1 hA.2.1 hA.2.2⟩

/-- The numeric-column names are drawn from the frame's column names in
order. -/
theorem numericCols_names_sublist (df : DataFrame) :
    ((numericCols df).map (fun c => c.1)).Sublist (df.cols.map (fun c => c.name)) := by
  unfold numericCols
  induction df.cols with
  | nil => simp
  | cons c cs ih =>
    rcases hc : c.data with cells | cells
    · simp only [List.filterMap_cons, hc, List.map_cons]
      exact List.Sublist.cons₂ _ ih
    · simp only [List.filterMap_cons, hc, List.map_cons]
      exact List.Sublist.cons _ ih

/-- A pair trend, when produced, is tagged with its metric column's name. -/
theorem pairTrend_metric (toDate : String → Option ℤ) (dcells : List (Option String))
    (mname : String) (mcells : List (Option ℚ)) (t : Trend)
    (h : pairTrend toDate dcells mname mcells = some t) : t.metric = mname := by
  unfold pairTrend at h
  rcases hc : cleanPair toDate dcells mcells with _ | rows
  · rw [hc] at h
    simp at h
  · rw [hc] at h
    dsimp only at h
    unfold trendOfRows at h
    split_ifs at h with h3
    dsimp only at h
    rw [Option.some.injEq] at h
    rw [← h]

/-- C8: for every dataset and every (first date-like column, metric) pair
with fewer than 3 rows remaining after dropping rows with a null date or
null metric, the trend detector yields no trend for that pair — and, the
model being a total function, raises no error for it.  Distinct column
names identify the pair by its metric name. -/
theorem sparse_pair_yields_no_trend (toDate : String → Option ℤ) (df : DataFrame)
    (dc : String × List (Option String)) (m : String × List (Option ℚ))
    (rows : List (ℤ × ℚ))
    (hnd : (df.cols.map (fun c => c.name)).Nodup)
    (hdc : ((objectCols df).filter (fun c => headParsesAsDates toDate c.2)).head? = some dc)
    (hm : m ∈ (numericCols df).take 3)
    (hclean : cleanPair toDate dc.2 m.2 = some rows)
    (hlen : rows.length < 3) :
    ∀ t ∈ detect_trends toDate df, t.metric ≠ m.1 := by
  intro t ht hmet
  unfold detect_trends at ht
  dsimp only at ht
  rw [hdc] at ht
  dsimp only at ht
  rw [List.mem_filterMap] at ht
  obtain ⟨mcol, hmcol, hpt⟩ := ht
  have hname : t.metric = mcol.1 := pairTrend_metric _ _ _ _ _ hpt
  have hnodup : ((numericCols df).map (fun c => c.1)).Nodup :=
    (numericCols_names_sublist df).nodup hnd
  have heq : mcol = m :=
    List.inj_on_of_nodup_map hnodup (List.mem_of_mem_take hmcol)
      (List.mem_of_mem_take hm) (by rw [← hname]; exact hmet)
  rw [heq] at hpt
  unfold pairTrend at hpt
  rw [hclean] at hpt
  dsimp only at hpt
  unfold trendOfRows at hpt
  rw [if_neg (by omega)] at hpt
  simp at hpt

/-- Concrete date parser for the trend witnesses. -/
def toDateW : String → Option ℤ := fun s =>
  if s = "d1" then some 1 else if s = "d2" then some 2 else if s = "d3" then some 3 else none

/-- Concrete frame for the C8 witness: a date column and a metric with only
2 usable rows. -/
def df8 : DataFrame :=
  ⟨2, [⟨"d", .object [some "d1", some "d2"]⟩, ⟨"m", .numeric [some 1, some 2]⟩]⟩

theorem sparse_pair_witness :
    ((df8.cols.map (fun c => c.name)).Nodup ∧
      ((objectCols df8).filter (fun c => headParsesAsDates toDateW c.2)).head? =
        some ("d", [some "d1", some "d2"]) ∧
      ("m", [some (1:ℚ), some 2]) ∈ (numericCols df8).take 3 ∧
      cleanPair toDateW [some "d1", some "d2"] [some (1:ℚ), some 2] = some [(1, 1), (2, 2)] ∧
      ([((1:ℤ), (1:ℚ)), (2, 2)]).length < 3) ∧
    ∀ t ∈ detect_trends toDateW df8, t.metric ≠ "m" := by
  have hA : (df8.cols.map (fun c => c.name)).Nodup ∧
      ((objectCols df8).filter (fun c => headParsesAsDates toDateW c.2)).head? =
        some ("d", [some "d1", some "d2"]) ∧
      ("m", [some (1:ℚ), some 2]) ∈ (numericCols df8).take 3 ∧
      cleanPair toDateW [some "d1", some "d2"] [some (1:ℚ), some 2] = some [(1, 1), (2, 2)] ∧
      ([((1:ℤ), (1:ℚ)), (2, 2)]).length < 3 := by
    decide
  exact ⟨hA, sparse_pair_yields_no_trend toDateW df8 ("d", [some "d1", some "d2"])
    ("m", [some 1, some 2]) [(1, 1), (2, 2)] hA.1 hA.2.1 hA.2.2.1 hA.2.2.2.1 hA.2.2.2.2⟩

/-- C3 (amended): for every dataset, the correlation list contains no pair
whose stored coefficient has absolute value below 0.5, is sorted by absolute
coefficient in non-increasing order (ties are possible, so the order is not
strict), and has length at most 5. -/
theorem correlations_bounded_sorted (corr : String → String → Option ℚ) (df : DataFrame) :
    (analyze_correlations corr df).length ≤ 5 ∧
    (∀ c ∈ analyze_correlations corr df, 1/2 ≤ |c.correlation|) ∧
    List.Pairwise (fun a b : Correlation => |b.correlation| ≤ |a.correlation|)
      (analyze_correlations corr df) := by
  haveI ht : IsTotal Correlation (fun a b : Correlation => |b.correlation| ≤ |a.correlation|) :=
    ⟨fun a b => le_total _ _⟩
  haveI htr : IsTrans Correlation (fun a b : Correlation => |b.correlation| ≤ |a.correlation|) :=
    ⟨fun _ _ _ hab hbc => le_trans hbc hab⟩
  unfold analyze_correlations
  dsimp only
  split_ifs with hn
  · refine ⟨List.length_take_le _ _, ?_, ?_⟩
    · intro c hc
      have hc2 := List.mem_of_mem_take hc
      rw [List.mem_insertionSort] at hc2
      rw [List.mem_filterMap] at hc2
      obtain ⟨pr, hpr, heq⟩ := hc2
      rcases hcorr : corr pr.1 pr.2 with _ | r
      · rw [hcorr] at heq
        simp at heq
      · rw [hcorr] at heq
        dsimp only at heq
        by_cases habs : (1:ℚ)/2 ≤ |r|
        · rw [if_pos habs] at heq
          rw [Option.some.injEq] at heq
          rw [← heq]
          exact le_abs_roundTo3 habs
        · rw [if_neg habs] at heq
          simp at heq
    · exact ((List.sorted_insertionSort _ _).sublist (List.take_sublist _ _))
  · simp

/-- Concrete frame for the C3 counterexample: three numeric columns that are
identical, so pandas computes a Pearson coefficient of exactly 1.0 for each
of the three pairs. -/
def df3 : DataFrame :=
  ⟨3, [⟨"x", .numeric [some 1, some 2, some 3]⟩,
       ⟨"y", .numeric [some 1, some 2, some 3]⟩,
       ⟨"z", .numeric [some 1, some 2, some 3]⟩]⟩

/-- The correlation matrix pandas computes for `df3`: every off-diagonal
entry is exactly 1. -/
def corr1 : String → String → Option ℚ := fun _ _ => some 1

/-- C3 counterexample: on `df3` all three emitted pairs carry coefficient 1,
so the output is not strictly sorted by absolute coefficient descending. -/
theorem correlations_not_strictly_sorted :
    ¬ List.Pairwise (fun a b : Correlation => |b.correlation| < |a.correlation|)
        (analyze_correlations corr1 df3) := by
  intro h
  have hmap : (analyze_correlations corr1 df3).map (fun c => c.correlation) = [1, 1, 1] := by
    norm_num [analyze_correlations, numericCols, df3, corr1, upperPairs,
      List.filterMap_cons, roundTo, roundHalfEven, List.insertionSort, List.orderedInsert]
  have h2 : List.Pairwise (fun x y : ℚ => |y| < |x|)
      ((analyze_correlations corr1 df3).map (fun c => c.correlation)) :=
    (List.pairwise_map).mpr h
  rw [hmap] at h2
  rcases h2 with _ | ⟨h3, _⟩
  have := h3 1 (by simp)
  simp at this

/-- `value_counts` output is sorted by count, descending (non-strictly). -/
theorem valueCounts_sorted (cells : List (Option String)) :
    List.Pairwise (fun a b : String × ℕ => b.2 ≤ a.2) (valueCounts cells) := by
  haveI : IsTotal (String × ℕ) (fun a b : String × ℕ => b.2 ≤ a.2) :=
    ⟨fun a b => le_total _ _⟩
  haveI : IsTrans (String × ℕ) (fun a b : String × ℕ => b.2 ≤ a.2) :=
    ⟨fun _ _ _ hab hbc => le_trans hbc hab⟩
  exact List.sorted_insertionSort _ _

/-- The clustering sub-analysis only ever emits the numeric-cluster
variant. -/
theorem numericClusterSegment_shape (km : List (List ℚ) → List ℕ) (df : DataFrame)
    (s : Segment) (h : numericClusterSegment km df = some s) :
    ∃ fs cl, s = Segment.numericClusters fs cl := by
  unfold numericClusterSegment at h
  by_cases h1 : 2 ≤ (numericCols df).length ∧ 10 ≤ df.nrows
  · rw [if_pos h1] at h
    dsimp only at h
    by_cases h2 : 10 ≤ (clusterRows df).length
    · rw [if_pos h2] at h
      rw [Option.some.injEq] at h
      exact ⟨_, _, h.symm⟩
    · rw [if_neg h2] at h
      simp at h
  · rw [if_neg h1] at h
    simp at h

/-- C10 (amended): every categorical segment emitted by the segment
analyzer lists between 2 and 5 categories, ordered by count descending, and
each listed category's percentage is its count divided by the full dataset
row count times 100, rounded to one decimal; a categorical column is
segmented only when its distinct-value count lies in [2, 10]. -/
theorem categorical_segment_structure (km : List (List ℚ) → List ℕ) (df : DataFrame)
    (sby : String) (segs : List CategoryCount)
    (h : Segment.categorical sby segs ∈ analyze_segments km df) :
    (2 ≤ segs.length ∧ segs.length ≤ 5) ∧
    List.Pairwise (fun a b : CategoryCount => b.count ≤ a.count) segs ∧
    (∀ cs ∈ segs, cs.percentage = roundTo 1 ((cs.count : ℚ) / (df.nrows : ℚ) * 100)) ∧
    (∃ cells, (sby, cells) ∈ (objectCols df).take 3 ∧
      2 ≤ (valueCounts cells).length ∧ (valueCounts cells).length ≤ 10 ∧
      segs = ((valueCounts cells).take 5).map (fun pr =>
        { name := pr.1, count := pr.2,
          percentage := roundTo 1 ((pr.2 : ℚ) / (df.nrows : ℚ) * 100) })) := by
  unfold analyze_segments at h
  rw [List.mem_append] at h
  rcases h with h | h
  · rw [List.mem_filterMap] at h
    obtain ⟨c, hc, hseg⟩ := h
    simp only [categoricalSegmentFor] at hseg
    split_ifs at hseg with hcond
    rw [Option.some.injEq] at hseg
    injection hseg with hname hsegs
    refine ⟨?_, ?_, ?_, ⟨c.2, ?_, hcond.1, hcond.2, hsegs.symm⟩⟩
    · rw [← hsegs, List.length_map, List.length_take]
      omega
    · rw [← hsegs]
      refine List.Pairwise.map _ (fun a b hab => hab) ?_
      exact (valueCounts_sorted c.2).sublist (List.take_sublist _ _)
    · intro cs hcs
      rw [← hsegs] at hcs
      rw [List.mem_map] at hcs
      obtain ⟨pr, hpr, hcs2⟩ := hcs
      rw [← hcs2]
    · have hpc : (sby, c.2) = c := by
        rw [← hname]
      rw [hpc]
      exact hc
  · rcases hnum : numericClusterSegment km df with _ | s
    · rw [hnum] at h
      simp at h
    · rw [hnum] at h
      simp only [Option.toList_some, List.mem_singleton] at h
      obtain ⟨fs, cl, hs⟩ := numericClusterSegment_shape km df s hnum
      rw [hs] at h
      exact absurd h (by simp)

/-- Concrete frame for C10: one categorical column with a 2/2/2 split over 6
rows, so each percentage is 100/3, which is not representable with one
decimal. -/
def df10 : DataFrame :=
  ⟨6, [⟨"A", .object [some "a", some "a", some "b", some "b", some "c", some "c"]⟩]⟩

theorem analyze_segments_df10 :
    analyze_segments km0 df10 =
      [Segment.categorical "A"
        [⟨"a", 2, 333/10⟩, ⟨"b", 2, 333/10⟩, ⟨"c", 2, 333/10⟩]] := by
  have hvc : valueCounts [some "a", some "a", some "b", some "b", some "c", some "c"] =
      [("a", 2), ("b", 2), ("c", 2)] := by decide
  have hr : roundTo 1 ((100:ℚ) / 3) = 333/10 := by
    norm_num [roundTo, roundHalfEven]
  have hnone : numericClusterSegment km0 df10 = none := by
    rw [numericClusterSegment, if_neg]
    intro hc
    revert hc
    norm_num [numericCols, df10, List.filterMap_cons]
  rw [analyze_segments, hnone]
  norm_num [objectCols, df10, List.filterMap_cons, categoricalSegmentFor, hvc, hr]

/-- C10 counterexample: on `df10` the emitted segment lists category "a"
with count 2 over 6 rows, and the stored percentage 33.3 differs from
2 / 6 × 100 = 100/3: the percentage field is rounded to one decimal, not
the exact quotient. -/
theorem category_percentage_not_exact :
    Segment.categorical "A" [⟨"a", 2, 333/10⟩, ⟨"b", 2, 333/10⟩, ⟨"c", 2, 333/10⟩] ∈
      analyze_segments km0 df10 ∧
    ∃ cs ∈ ([⟨"a", 2, 333/10⟩, ⟨"b", 2, 333/10⟩, ⟨"c", 2, 333/10⟩] : List CategoryCount),
      cs.percentage ≠ (cs.count : ℚ) / (df10.nrows : ℚ) * 100 := by
  constructor
  · rw [analyze_segments_df10]
    simp
  · refine ⟨⟨"a", 2, 333/10⟩, by simp, ?_⟩
    show (333:ℚ)/10 ≠ (2 : ℚ) / (6 : ℚ) * 100
    norm_num

theorem categorical_segment_witness :
    (Segment.categorical "A" [⟨"a", 2, 333/10⟩, ⟨"b", 2, 333/10⟩, ⟨"c", 2, 333/10⟩] ∈
      analyze_segments km0 df10) ∧
    ((2 ≤ ([⟨"a", 2, 333/10⟩, ⟨"b", 2, 333/10⟩, ⟨"c", 2, 333/10⟩] : List CategoryCount).length ∧
        ([⟨"a", 2, 333/10⟩, ⟨"b", 2, 333/10⟩, ⟨"c", 2, 333/10⟩] : List CategoryCount).length ≤ 5) ∧
      List.Pairwise (fun a b : CategoryCount => b.count ≤ a.count)
        ([⟨"a", 2, 333/10⟩, ⟨"b", 2, 333/10⟩, ⟨"c", 2, 333/10⟩] : List CategoryCount) ∧
      (∀ cs ∈ ([⟨"a", 2, 333/10⟩, ⟨"b", 2, 333/10⟩, ⟨"c", 2, 333/10⟩] : List CategoryCount),
        cs.percentage = roundTo 1 ((cs.count : ℚ) / (df10.nrows : ℚ) * 100)) ∧
      (∃ cells, ("A", cells) ∈ (objectCols df10).take 3 ∧
        2 ≤ (valueCounts cells).length ∧ (valueCounts cells).length ≤ 10 ∧
        ([⟨"a", 2, 333/10⟩, ⟨"b", 2, 333/10⟩, ⟨"c", 2, 333/10⟩] : List CategoryCount) =
          ((valueCounts cells).take 5).map (fun pr =>
            { name := pr.1, count := pr.2,
              percentage := roundTo 1 ((pr.2 : ℚ) / (df10.nrows : ℚ) * 100) }))) := by
  have hmem : Segment.categorical "A" [⟨"a", 2, 333/10⟩, ⟨"b", 2, 333/10⟩, ⟨"c", 2, 333/10⟩] ∈
      analyze_segments km0 df10 := by
    rw [analyze_segments_df10]
    simp
  exact ⟨hmem, categorical_segment_structure km0 df10 "A"
    [⟨"a", 2, 333/10⟩, ⟨"b", 2, 333/10⟩, ⟨"c", 2, 333/10⟩] hmem⟩

/-- C5: for every dataset and every emitted outlier group, the bounds are
exactly Q1 − 1.5·IQR and Q3 + 1.5·IQR of that column, the group is emitted
only when at least one outlier exists, the counted outlier set lies
strictly outside [lower, upper], and the reported extreme values are
members of that set, hence strictly outside the bounds as well. -/
theorem outlier_group_properties (df : DataFrame) (g : OutlierGroup)
    (hg : g ∈ detect_outliers df) :
    ∃ cells, (g.column, cells) ∈ (numericCols df).take 5 ∧
      ∃ q1 q3, quantileLinear cells (1/4) = some q1 ∧ quantileLinear cells (3/4) = some q3 ∧
        g.lower = q1 - 3/2 * (q3 - q1) ∧
        g.upper = q3 + 3/2 * (q3 - q1) ∧
        1 ≤ g.outlier_count ∧
        g.outlier_count = ((cells.filterMap id).filter
          (fun v => decide (v < g.lower) || decide (g.upper < v))).length ∧
        (∀ v ∈ (cells.filterMap id).filter
            (fun v => decide (v < g.lower) || decide (g.upper < v)),
          v < g.lower ∨ g.upper < v) ∧
        (∃ hv, g.highest = some hv ∧ (hv < g.lower ∨ g.upper < hv)) ∧
        (∃ lv, g.lowest = some lv ∧ (lv < g.lower ∨ g.upper < lv)) := by
  unfold detect_outliers at hg
  rw [List.mem_filterMap] at hg
  obtain ⟨c, hc, hgf⟩ := hg
  unfold outlierGroupFor at hgf
  rcases hq1 : quantileLinear c.2 (1/4) with _ | q1
  · rw [hq1] at hgf
    simp at hgf
  · rcases hq3 : quantileLinear c.2 (3/4) with _ | q3
    · rw [hq1, hq3] at hgf
      simp at hgf
    · rw [hq1, hq3] at hgf
      dsimp only at hgf
      split_ifs at hgf with hpos
      rw [Option.some.injEq] at hgf
      subst hgf
      refine ⟨c.2, ?_, q1, q3, hq1, hq3, rfl, rfl, hpos, rfl, ?_, ?_, ?_⟩
      · rw [Prod.mk.eta]
        exact hc
      · intro v hv
        rw [List.mem_filter] at hv
        have := hv.2
        simp only [Bool.or_eq_true, decide_eq_true_eq] at this
        exact this
      · rcases hmax : ((c.2.filterMap id).filter
            (fun v => decide (v < q1 - 3/2 * (q3 - q1)) ||
              decide (q3 + 3/2 * (q3 - q1) < v))).max? with _ | hv
        · rw [List.max?_eq_none_iff] at hmax
          rw [hmax] at hpos
          simp at hpos
        · refine ⟨hv, by first | (rw [if_pos hpos]; exact hmax) | exact hmax | rfl, ?_⟩
          have hmem := List.max?_mem (fun a b => max_choice a b) hmax
          rw [List.mem_filter] at hmem
          have := hmem.2
          simp only [Bool.or_eq_true, decide_eq_true_eq] at this
          exact this
      · rcases hmin : ((c.2.filterMap id).filter
            (fun v => decide (v < q1 - 3/2 * (q3 - q1)) ||
              decide (q3 + 3/2 * (q3 - q1) < v))).min? with _ | lv
        · rw [List.min?_eq_none_iff] at hmin
          rw [hmin] at hpos
          simp at hpos
        · refine ⟨lv, by first | (rw [if_pos hpos]; exact hmin) | exact hmin | rfl, ?_⟩
          have hmem := List.min?_mem (fun a b => min_choice a b) hmin
          rw [List.mem_filter] at hmem
          have := hmem.2
          simp only [Bool.or_eq_true, decide_eq_true_eq] at this
          exact this

/-- Concrete frame for the C5 witness: one numeric column whose quartiles
coincide at 1, so 100 is an outlier. -/
def df5 : DataFrame :=
  ⟨5, [⟨"v", .numeric [some 1, some 1, some 1, some 1, some 100]⟩]⟩

/-- The outlier group the detector reports on `df5`. -/
def og5 : OutlierGroup := ⟨"v", 1, 20, some 100, some 100, 1, 1⟩

theorem detect_outliers_df5 : detect_outliers df5 = [og5] := by
  have hq1 : quantileLinear [some (1:ℚ), some 1, some 1, some 1, some 100] (1/4) = some 1 := by
    norm_num [quantileLinear, List.insertionSort, List.orderedInsert, List.filterMap_cons,
      List.getD, Int.toNat_ofNat, List.getElem_cons_zero, List.getElem_cons_succ,
      List.getElem?_cons_zero, List.getElem?_cons_succ]
  have ht3 : (3:ℤ).toNat = 3 := rfl
  have hq3 : quantileLinear [some (1:ℚ), some 1, some 1, some 1, some 100] (3/4) = some 1 := by
    norm_num [quantileLinear, List.insertionSort, List.orderedInsert, List.filterMap_cons,
      List.getD, ht3, List.getElem_cons_zero, List.getElem_cons_succ,
      List.getElem?_cons_zero, List.getElem?_cons_succ]
  have hr20 : roundTo 1 (20:ℚ) = 20 := by
    norm_num [roundTo, roundHalfEven]
  have hgf : outlierGroupFor 5 "v" [some (1:ℚ), some 1, some 1, some 1, some 100] = some og5 := by
    unfold outlierGroupFor
    rw [hq1, hq3]
    dsimp only
    norm_num [og5, List.filter, List.filterMap_cons, List.max?, List.min?, hr20]
  unfold detect_outliers
  norm_num [numericCols, df5, List.filterMap_cons, hgf]

theorem outlier_group_witness :
    og5 ∈ detect_outliers df5 ∧
    (∃ cells, (og5.column, cells) ∈ (numericCols df5).take 5 ∧
      ∃ q1 q3, quantileLinear cells (1/4) = some q1 ∧ quantileLinear cells (3/4) = some q3 ∧
        og5.lower = q1 - 3/2 * (q3 - q1) ∧
        og5.upper = q3 + 3/2 * (q3 - q1) ∧
        1 ≤ og5.outlier_count ∧
        og5.outlier_count = ((cells.filterMap id).filter
          (fun v => decide (v < og5.lower) || decide (og5.upper < v))).length ∧
        (∀ v ∈ (cells.filterMap id).filter
            (fun v => decide (v < og5.lower) || decide (og5.upper < v)),
          v < og5.lower ∨ og5.upper < v) ∧
        (∃ hv, og5.highest = some hv ∧ (hv < og5.lower ∨ og5.upper < hv)) ∧
        (∃ lv, og5.lowest = some lv ∧ (lv < og5.lower ∨ og5.upper < lv))) := by
  have hmem : og5 ∈ detect_outliers df5 := by
    rw [detect_outliers_df5]
    simp
  exact ⟨hmem, outlier_group_properties df5 og5 hmem⟩

/-- A pair whose cleaned metric values start at a positive `f` and end at
`2 * f` with at least 3 usable points yields a growth trend with an overall
change of exactly 100%. -/
theorem trendOfRows_doubling (mname : String) (rows : List (ℤ × ℚ)) (f : ℚ)
    (hlen : 3 ≤ rows.length)
    (hfirst : (rows.map (fun r => r.2)).head? = some f)
    (hlast : (rows.map (fun r => r.2)).getLast? = some (2 * f))
    (hpos : 0 < f) :
    ∃ t, trendOfRows mname rows = some t ∧ t.metric = mname ∧ t.direction = "growth" ∧
      t.overall_change_pct = 100 := by
  have hvf : (rows.map (fun r => r.2)).headD 0 = f := by
    rw [List.headD_eq_head?, hfirst]
    rfl
  have hvl : (rows.map (fun r => r.2)).getLastD 0 = 2 * f := by
    rw [List.getLastD_eq_getLast?, hlast]
    rfl
  have hne : (rows.map (fun r => r.2)).headD 0 ≠ 0 := by
    rw [hvf]
    exact ne_of_gt hpos
  have hover : (if (rows.map (fun r => r.2)).headD 0 ≠ 0 then
        ((rows.map (fun r => r.2)).getLastD 0 - (rows.map (fun r => r.2)).headD 0) /
          |(rows.map (fun r => r.2)).headD 0| * 100
      else 0) = 100 := by
    rw [if_pos hne, hvf, hvl, abs_of_pos hpos]
    field_simp
    ring
  unfold trendOfRows
  rw [if_pos hlen]
  dsimp only
  rw [hover]
  refine ⟨_, rfl, rfl, ?_, ?_⟩
  · show (if (5:ℚ) < 100 then "growth"
      else if (100:ℚ) < -5 then "decline" else "stable") = "growth"
    norm_num
  · show roundTo 1 (100:ℚ) = 100
    norm_num [roundTo, roundHalfEven]

/-- C6 (amended): for every dataset containing a date-like column and a
metric column whose cleaned values start at a positive first value `f` and
end at `2 * f` (they double) with at least 3 usable points, the trend
detector reports that metric with direction "growth" and
overall_change_pct = 100.0, per (last − first) / |first| × 100. -/
theorem doubling_metric_growth (toDate : String → Option ℤ) (df : DataFrame)
    (dc : String × List (Option String)) (m : String × List (Option ℚ))
    (rows : List (ℤ × ℚ)) (f : ℚ)
    (hdc : ((objectCols df).filter (fun c => headParsesAsDates toDate c.2)).head? = some dc)
    (hm : m ∈ (numericCols df).take 3)
    (hclean : cleanPair toDate dc.2 m.2 = some rows)
    (hlen : 3 ≤ rows.length)
    (hfirst : (rows.map (fun r => r.2)).head? = some f)
    (hlast : (rows.map (fun r => r.2)).getLast? = some (2 * f))
    (hpos : 0 < f) :
    ∃ t ∈ detect_trends toDate df, t.metric = m.1 ∧ t.direction = "growth" ∧
      t.overall_change_pct = 100 := by
  obtain ⟨t, hpt, hmet, hdir, hpct⟩ := trendOfRows_doubling m.1 rows f hlen hfirst hlast hpos
  refine ⟨t, ?_, hmet, hdir, hpct⟩
  unfold detect_trends
  dsimp only
  rw [hdc]
  dsimp only
  rw [List.mem_filterMap]
  refine ⟨m, hm, ?_⟩
  unfold pairTrend
  rw [hclean]
  exact hpt

/-- Concrete frame for the C6 counterexample: the metric doubles from −5 to
−10 across three dated rows. -/
def df6 : DataFrame :=
  ⟨3, [⟨"d", .object [some "d1", some "d2", some "d3"]⟩,
       ⟨"m", .numeric [some (-5), some (-7), some (-10)]⟩]⟩

/-- C6 counterexample: on `df6` the metric values double from first to last
(−5 to −10 = 2·(−5)) with 3 usable points, yet the detector reports
direction "decline" with overall change −100, not "growth" with 100:
the formula divides by |first|, so doubling a negative start yields −100%. -/
theorem doubling_negative_counterexample :
    (((objectCols df6).filter (fun c => headParsesAsDates toDateW c.2)).head? =
        some ("d", [some "d1", some "d2", some "d3"]) ∧
      ("m", [some (-5:ℚ), some (-7), some (-10)]) ∈ (numericCols df6).take 3 ∧
      cleanPair toDateW [some "d1", some "d2", some "d3"]
          [some (-5:ℚ), some (-7), some (-10)] =
        some [(1, -5), (2, -7), (3, -10)] ∧
      3 ≤ ([((1:ℤ), (-5:ℚ)), (2, -7), (3, -10)]).length ∧
      (([((1:ℤ), (-5:ℚ)), (2, -7), (3, -10)]).map (fun r => r.2)).head? = some (-5) ∧
      (([((1:ℤ), (-5:ℚ)), (2, -7), (3, -10)]).map (fun r => r.2)).getLast? =
        some (2 * (-5))) ∧
    ((detect_trends toDateW df6).length = 1 ∧
      ∀ t ∈ detect_trends toDateW df6,
        t.metric = "m" ∧ t.direction = "decline" ∧ t.overall_change_pct = -100) := by
  constructor
  · refine ⟨by decide, by decide, by decide, by decide, by decide, ?_⟩
    show some ((-10:ℚ)) = some (2 * (-5))
    norm_num
  · have hdc : ((objectCols df6).filter (fun c => headParsesAsDates toDateW c.2)).head? =
        some ("d", [some "d1", some "d2", some "d3"]) := by decide
    have htake : (numericCols df6).take 3 = [("m", [some (-5:ℚ), some (-7), some (-10)])] := by
      decide
    have hclean : cleanPair toDateW [some "d1", some "d2", some "d3"]
        [some (-5:ℚ), some (-7), some (-10)] = some [(1, -5), (2, -7), (3, -10)] := by
      decide
    have hred : detect_trends toDateW df6 =
        [("m", [some (-5:ℚ), some (-7), some (-10)])].filterMap (fun mc =>
          pairTrend toDateW [some "d1", some "d2", some "d3"] mc.1 mc.2) := by
      unfold detect_trends
      dsimp only
      rw [hdc]
      dsimp only
      rw [htake]
    have hpt : ∀ t, pairTrend toDateW [some "d1", some "d2", some "d3"] "m"
        [some (-5:ℚ), some (-7), some (-10)] = some t →
        t.metric = "m" ∧ t.direction = "decline" ∧ t.overall_change_pct = -100 := by
      intro t hf
      unfold pairTrend at hf
      rw [hclean] at hf
      dsimp only at hf
      unfold trendOfRows at hf
      rw [if_pos (by decide)] at hf
      dsimp only at hf
      rw [Option.some.injEq] at hf
      refine ⟨?_, ?_, ?_⟩
      · rw [← hf]
      · rw [← hf]
        show (if h5 : _ then _ else _) = _
        norm_num [List.headD, List.getLastD, roundTo, roundHalfEven]
      · rw [← hf]
        norm_num [List.headD, List.getLastD, roundTo, roundHalfEven]
    constructor
    · rw [hred]
      rcases hcase : pairTrend toDateW [some "d1", some "d2", some "d3"] "m"
          [some (-5:ℚ), some (-7), some (-10)] with _ | t
      · exfalso
        unfold pairTrend at hcase
        rw [hclean] at hcase
        dsimp only at hcase
        unfold trendOfRows at hcase
        rw [if_pos (by decide)] at hcase
        simp at hcase
      · simp [List.filterMap_cons, hcase]
    · intro t ht
      rw [hred] at ht
      rw [List.mem_filterMap] at ht
      obtain ⟨mc, hmc, hf⟩ := ht
      rw [List.mem_singleton] at hmc
      subst hmc
      exact hpt t hf

/-- Concrete frame for the C6 witness: the metric doubles from 5 to 10
across three dated rows. -/
def df6w : DataFrame :=
  ⟨3, [⟨"d", .object [some "d1", some "d2", some "d3"]⟩,
       ⟨"m", .numeric [some 5, some 7, some 10]⟩]⟩

theorem doubling_metric_growth_witness :
    (((objectCols df6w).filter (fun c => headParsesAsDates toDateW c.2)).head? =
        some ("d", [some "d1", some "d2", some "d3"]) ∧
      ("m", [some (5:ℚ), some 7, some 10]) ∈ (numericCols df6w).take 3 ∧
      cleanPair toDateW [some "d1", some "d2", some "d3"] [some (5:ℚ), some 7, some 10] =
        some [(1, 5), (2, 7), (3, 10)] ∧
      3 ≤ ([((1:ℤ), (5:ℚ)), (2, 7), (3, 10)]).length ∧
      (([((1:ℤ), (5:ℚ)), (2, 7), (3, 10)]).map (fun r => r.2)).head? = some 5 ∧
      (([((1:ℤ), (5:ℚ)), (2, 7), (3, 10)]).map (fun r => r.2)).getLast? = some (2 * 5) ∧
      (0:ℚ) < 5) ∧
    (∃ t ∈ detect_trends toDateW df6w, t.metric = "m" ∧ t.direction = "growth" ∧
      t.overall_change_pct = 100) := by
  have hdc : ((objectCols df6w).filter (fun c => headParsesAsDates toDateW c.2)).head? =
      some ("d", [some "d1", some "d2", some "d3"]) := by decide
  have hm : ("m", [some (5:ℚ), some 7, some 10]) ∈ (numericCols df6w).take 3 := by decide
  have hclean : cleanPair toDateW [some "d1", some "d2", some "d3"]
      [some (5:ℚ), some 7, some 10] = some [(1, 5), (2, 7), (3, 10)] := by decide
  have hlen : 3 ≤ ([((1:ℤ), (5:ℚ)), (2, 7), (3, 10)]).length := by decide
  have hfirst : (([((1:ℤ), (5:ℚ)), (2, 7), (3, 10)]).map (fun r => r.2)).head? = some 5 := by
    decide
  have hlast : (([((1:ℤ), (5:ℚ)), (2, 7), (3, 10)]).map (fun r => r.2)).getLast? =
      some (2 * 5) := by
    show some ((10:ℚ)) = some (2 * 5)
    norm_num
  have hpos : (0:ℚ) < 5 := by norm_num
  exact ⟨⟨hdc, hm, hclean, hlen, hfirst, hlast, hpos⟩,
    doubling_metric_growth toDateW df6w ("d", [some "d1", some "d2", some "d3"])
      ("m", [some 5, some 7, some 10]) [(1, 5), (2, 7), (3, 10)] 5
      hdc hm hclean hlen hfirst hlast hpos⟩

/-- Concrete frame for C1: two categorical columns.  Column "A" (first) has
a 2/2/2 split, so its largest category holds 33.3% < 40%; column "B"
(second) has a 5/1 split, so its largest category holds 83.3% ≥ 40%. -/
def df1 : DataFrame :=
  ⟨6, [⟨"A", .object [some "a", some "a", some "b", some "b", some "c", some "c"]⟩,
       ⟨"B", .object [some "x", some "x", some "x", some "x", some "x", some "y"]⟩]⟩

/-- C1: the `break` on line 337 of the source sits at the top level of the
`for segment in segments` body rather than inside the qualifying `if`, so
only the first segment is ever examined.  On `df1` the first categorical
segment does not qualify (largest category 33.3% < 40%) while the second
does (83.3% ≥ 40%), yet the pipeline emits no market_segmentation insight
at all — against the documented "scan until the first qualifying segment"
behaviour. -/
theorem segment_insight_break_bug :
    analyze_segments km0 df1 =
      [Segment.categorical "A" [⟨"a", 2, 333/10⟩, ⟨"b", 2, 333/10⟩, ⟨"c", 2, 333/10⟩],
       Segment.categorical "B" [⟨"x", 5, 833/10⟩, ⟨"y", 1, 167/10⟩]] ∧
    (∀ cs ∈ ([⟨"a", 2, 333/10⟩, ⟨"b", 2, 333/10⟩, ⟨"c", 2, 333/10⟩] : List CategoryCount),
      cs.percentage < 40) ∧
    (2 ≤ ([⟨"x", 5, 833/10⟩, ⟨"y", 1, 167/10⟩] : List CategoryCount).length ∧
      maxByFirst (fun s => s.percentage)
        ([⟨"x", 5, 833/10⟩, ⟨"y", 1, 167/10⟩] : List CategoryCount) = some ⟨"x", 5, 833/10⟩ ∧
      (40:ℚ) ≤ 833/10) ∧
    (analyze_dataframe toDate0 corr0 km0 df1 "t").key_insights = [] := by
  have hvcA : valueCounts [some "a", some "a", some "b", some "b", some "c", some "c"] =
      [("a", 2), ("b", 2), ("c", 2)] := by decide
  have hvcB : valueCounts [some "x", some "x", some "x", some "x", some "x", some "y"] =
      [("x", 5), ("y", 1)] := by decide
  have hrA : roundTo 1 ((100:ℚ)/3) = 333/10 := by
    norm_num [roundTo, roundHalfEven]
  have hrX : roundTo 1 ((250:ℚ)/3) = 833/10 := by
    norm_num [roundTo, roundHalfEven]
  have hrY : roundTo 1 ((50:ℚ)/3) = 167/10 := by
    norm_num [roundTo, roundHalfEven]
  have hnone : numericClusterSegment km0 df1 = none := by
    rw [numericClusterSegment, if_neg]
    intro hc
    revert hc
    norm_num [numericCols, df1, List.filterMap_cons]
  have hseg : analyze_segments km0 df1 =
      [Segment.categorical "A" [⟨"a", 2, 333/10⟩, ⟨"b", 2, 333/10⟩, ⟨"c", 2, 333/10⟩],
       Segment.categorical "B" [⟨"x", 5, 833/10⟩, ⟨"y", 1, 167/10⟩]] := by
    rw [analyze_segments, hnone]
    norm_num [objectCols, df1, List.filterMap_cons, categoricalSegmentFor, hvcA, hvcB,
      hrA, hrX, hrY]
  have htr : detect_trends toDate0 df1 = [] := by
    have hfe : ((objectCols df1).filter (fun c => headParsesAsDates toDate0 c.2)) = [] := by
      decide
    simp [detect_trends, hfe]
  have hco : analyze_correlations corr0 df1 = [] := by
    simp only [analyze_correlations]
    rw [if_neg]
    · rfl
    · rw [List.length_map]
      have hn : (numericCols df1).length = 0 := by decide
      omega
  have hmaxA : maxByFirst (fun s => s.percentage)
      ([⟨"a", 2, 333/10⟩, ⟨"b", 2, 333/10⟩, ⟨"c", 2, 333/10⟩] : List CategoryCount) =
      some ⟨"a", 2, 333/10⟩ := by
    norm_num [maxByFirst]
  have hsi : segmentInsight
      [Segment.categorical "A" [⟨"a", 2, 333/10⟩, ⟨"b", 2, 333/10⟩, ⟨"c", 2, 333/10⟩],
       Segment.categorical "B" [⟨"x", 5, 833/10⟩, ⟨"y", 1, 167/10⟩]] = none := by
    simp only [segmentInsight]
    rw [hmaxA]
    dsimp only
    rw [if_neg (show ¬((40:ℚ) ≤ 333/10) by norm_num)]
    simp
  have hki : (analyze_dataframe toDate0 corr0 km0 df1 "t").key_insights =
      (growthInsight (detect_trends toDate0 df1)).toList ++
        (relationshipInsight (analyze_correlations corr0 df1)).toList ++
        (segmentInsight (analyze_segments km0 df1)).toList := rfl
  refine ⟨hseg, ?_, ⟨by decide, ?_, by norm_num⟩, ?_⟩
  · intro cs hcs
    fin_cases hcs <;> norm_num
  · norm_num [maxByFirst]
  · rw [hki, htr, hco, hseg, hsi]
    rfl
